import Mathlib

/-!
Shallow embedding of the `censivn/zigbee-switch` firmware.

The repository contains four near-duplicate hardware variants:
`src/zigbee_switch/zigbee_switch.ino`, `src/H2_Zigbee_Switch/H2_Zigbee_Switch.ino`,
`src/legacy_esp_idf/main/main.c` and `src/main/main.c`.  Each side-effecting C
function that the specification talks about is modelled as a pure function from
an explicit state to a new state paired with the list of externally visible
effects it performs, in program order: PWM duty commands (`ledc_set_duty` +
`ledc_update_duty`), one-shot timer arm/stop (`esp_timer_start_once` /
`esp_timer_stop`), Zigbee lock acquire/release and report requests, LED writes,
factory reset and deep sleep.  Times are milliseconds as `Nat`.

The one-shot `esp_timer` is modelled as a list of armed absolute deadlines so
that "at most one deadline armed" is a provable invariant rather than a
consequence of the model's type: `esp_timer_start_once` appends a deadline,
`esp_timer_stop` clears all of them.
-/

/-- Externally visible effects performed by the firmware, in program order. -/
inductive Eff where
  | setDuty (duty : Int)
  | timerStop
  | timerStart (ms : Nat)
  | ledWrite (r g b : Nat)
  | zbSetLight (level : Bool)
  | lockAcquire
  | lockRelease
  | reportReq (cluster attr : Nat)
  | factoryReset
  | deepSleep
  deriving DecidableEq

/-- Is this effect a position command to the actuator driver facade
(`ledc_set_duty`/`ledc_update_duty` pair issued by `servo_set_angle`)? -/
def isSetDuty : Eff → Bool
  | .setDuty _ => true
  | _ => false

/-- Number of facade position commands in a trace. -/
def countSetDuty (tr : List Eff) : Nat := (tr.filter isSetDuty).length

/-! ### Servo duty computation, identical in all four variants

`int duty = DUTY_AT_0_DEG + (angle * (DUTY_AT_180_DEG - DUTY_AT_0_DEG) / 180);`
C `int` division truncates toward zero; for `0 ≤ angle` (all uses pass 20, 160
or 180) this agrees with Lean's `Int` division, and the intermediate product
stays far below `2^31`, so the unbounded model agrees with the 32-bit source. -/

def DUTY_AT_0_DEG : Int := 205

def DUTY_AT_180_DEG : Int := 1024

def SERVO_TARGET_ANGLE : Int := 160

def SERVO_REST_ANGLE : Int := 20

def SERVO_AUTO_RETURN_MS : Nat := 2000

/-- The duty value computed by `servo_set_angle` / `servoSetAngle`. -/
def servoDuty (angle : Int) : Int :=
  DUTY_AT_0_DEG + angle * (DUTY_AT_180_DEG - DUTY_AT_0_DEG) / 180

/-- `servo_set_angle` (legacy) / `servoSetAngle` (Arduino variants): computes
the duty and issues it to the LEDC driver. -/
def servo_set_angle (angle : Int) : List Eff := [.setDuty (servoDuty angle)]

/-- Claim C10: For every angle `a` with `0 ≤ a ≤ 180` the commanded duty is
`205 + a * (1024 - 205) / 180` in exact integer arithmetic; it is monotonically
non-decreasing in the angle and always lies within `[205, 1024]`, so no
in-range angle can drive the PWM outside the two calibrated endpoint duties.
(The final two conjuncts witness that the 32-bit C intermediate product cannot
overflow, so the exact-integer model is faithful.) -/
theorem servoDuty_calibrated (a b : Int) (h0 : 0 ≤ a) (hab : a ≤ b) (hb : b ≤ 180) :
    DUTY_AT_0_DEG ≤ servoDuty a ∧ servoDuty a ≤ servoDuty b ∧
    servoDuty b ≤ DUTY_AT_180_DEG ∧
    0 ≤ a * (DUTY_AT_180_DEG - DUTY_AT_0_DEG) ∧
    a * (DUTY_AT_180_DEG - DUTY_AT_0_DEG) < 2 ^ 31 := by
  have hm : a * 819 ≤ b * 819 := by nlinarith
  have ha0 : 0 ≤ a * 819 := by nlinarith
  have hbu : b * 819 ≤ 147420 := by nlinarith
  simp only [servoDuty, DUTY_AT_0_DEG, DUTY_AT_180_DEG]
  norm_num
  omega

/-- Witness for C10 at the two angles the firmware actually commands. -/
theorem servoDuty_calibrated_witness :
    DUTY_AT_0_DEG ≤ servoDuty 20 ∧ servoDuty 20 ≤ servoDuty 160 ∧
    servoDuty 160 ≤ DUTY_AT_180_DEG ∧
    0 ≤ (20 : Int) * (DUTY_AT_180_DEG - DUTY_AT_0_DEG) ∧
    (20 : Int) * (DUTY_AT_180_DEG - DUTY_AT_0_DEG) < 2 ^ 31 :=
  servoDuty_calibrated 20 160 (by norm_num) (by norm_num) (by norm_num)

/-! ## Legacy ESP-IDF variant: `src/legacy_esp_idf/main/main.c`

Actuator timing controller: `g_servo_at_target`, the one-shot `g_servo_timer`
and the functions `servo_cancel_timer`, `servo_start_timer`, `servo_play`
(press), `servo_rest` (release), `servo_toggle`, `servo_return_callback`. -/

namespace Legacy

/-- Servo-subsystem state.  `armed` lists the absolute expiry times currently
armed on `g_servo_timer` (the real one-shot timer holds at most one; the list
lets that be proved instead of assumed).  `timerCreated` models
`g_servo_timer != NULL`. -/
structure ServoState where
  at_target : Bool
  armed : List Nat
  timerCreated : Bool
  deriving DecidableEq

/-- `esp_timer_stop(g_servo_timer)`: disarms every pending deadline. -/
def esp_timer_stop (s : ServoState) : ServoState × List Eff :=
  ({ s with armed := [] }, [.timerStop])

/-- `esp_timer_start_once(g_servo_timer, SERVO_AUTO_RETURN_MS * 1000)`:
arms one more deadline `SERVO_AUTO_RETURN_MS` after `now`. -/
def esp_timer_start_once (now : Nat) (s : ServoState) : ServoState × List Eff :=
  ({ s with armed := s.armed ++ [now + SERVO_AUTO_RETURN_MS] },
    [.timerStart SERVO_AUTO_RETURN_MS])

/-- `servo_cancel_timer`: stop the timer if it was created. -/
def servo_cancel_timer (s : ServoState) : ServoState × List Eff :=
  if s.timerCreated then esp_timer_stop s else (s, [])

/-- `servo_start_timer`: stop the previous timer, then start a fresh one-shot
(guarded by `g_servo_timer != NULL`). -/
def servo_start_timer (now : Nat) (s : ServoState) : ServoState × List Eff :=
  if s.timerCreated then
    let (s1, tr1) := esp_timer_stop s
    let (s2, tr2) := esp_timer_start_once now s1
    (s2, tr1 ++ tr2)
  else (s, [])

/-- `servo_play`: command the target angle, record `g_servo_at_target = true`,
then (re)start the auto-return timer. -/
def servo_play (now : Nat) (s : ServoState) : ServoState × List Eff :=
  let tr0 := servo_set_angle SERVO_TARGET_ANGLE
  let s1 := { s with at_target := true }
  let (s2, tr2) := servo_start_timer now s1
  (s2, tr0 ++ tr2)

/-- `servo_rest`: cancel the timer, then command the rest angle and record
`g_servo_at_target = false`. -/
def servo_rest (s : ServoState) : ServoState × List Eff :=
  let (s1, tr1) := servo_cancel_timer s
  ({ s1 with at_target := false }, tr1 ++ servo_set_angle SERVO_REST_ANGLE)

/-- `servo_toggle`: release if at the target position, else press. -/
def servo_toggle (now : Nat) (s : ServoState) : ServoState × List Eff :=
  if s.at_target then servo_rest s else servo_play now s

/-- `servo_return_callback`: the `esp_timer` expiry callback.  It commands the
rest angle directly (`servo_set_angle(SERVO_REST_ANGLE)`) and clears
`g_servo_at_target`. -/
def servo_return_callback (s : ServoState) : ServoState × List Eff :=
  ({ s with at_target := false }, servo_set_angle SERVO_REST_ANGLE)

/-- One actuator-timing-controller operation. -/
inductive Op where
  | play
  | rest
  | toggle
  deriving DecidableEq

/-- Execute one operation at time `now`. -/
def stepOp : Op × Nat → ServoState → ServoState × List Eff
  | (.play, now), s => servo_play now s
  | (.rest, _), s => servo_rest s
  | (.toggle, now), s => servo_toggle now s

/-- Execute a sequence of press/release/toggle operations. -/
def runServo (s : ServoState) : List (Op × Nat) → ServoState
  | [] => s
  | o :: ops => runServo (stepOp o s).1 ops

end Legacy

/-- A concrete actuator state: at rest, one auto-release deadline armed
(expiry at t = 1700 ms), timer object created. -/
def legacyArmedRest : Legacy.ServoState :=
  { at_target := false, armed := [1700], timerCreated := true }

/-- A concrete actuator state: pressed with an active deadline, timer created. -/
def legacyArmedPressed : Legacy.ServoState :=
  { at_target := true, armed := [1700], timerCreated := true }

/-- Claim C1, counterexample: The claim says the auto-release timer expiry
callback never commands the actuator driver facade.  In the legacy variant
(`servo_return_callback`, `src/legacy_esp_idf/main/main.c` lines 127–131; the
H2 variant's `servoReturnCallback` is identical) the callback issues a facade
position command (`servo_set_angle(SERVO_REST_ANGLE)`) directly from the timer
context, so its trace contains a position command. -/
theorem servo_return_callback_commands_facade :
    countSetDuty (Legacy.servo_return_callback legacyArmedPressed).2 ≠ 0 := by
  decide

/-- The legacy timer callback's whole trace is the single rest-position
command (supporting detail for the counterexample above). -/
theorem servo_return_callback_rest_command :
    (Legacy.servo_return_callback legacyArmedPressed).2
      = [Eff.setDuty (servoDuty SERVO_REST_ANGLE)] := by
  decide

/-- Claim C2, counterexample: The claim says a fresh `press()` first cancels any
outstanding armed deadline *before doing anything else*.  In the code
(`servo_play`, and identically `servoPlay` in the Arduino variants) the facade
position command `servo_set_angle(SERVO_TARGET_ANGLE)` is issued first and the
outstanding timer is only stopped afterwards, inside `servo_start_timer`: from
a state with an armed deadline, the first effect of a press is a position
command, not the cancel. -/
theorem servo_play_does_not_cancel_first :
    ¬ ((Legacy.servo_play 500 legacyArmedRest).2.head? = some Eff.timerStop) := by
  decide

/-- Auxiliary: `servo_play` always leaves exactly the fresh deadline armed
(when the timer object exists), regardless of what was armed before. -/
theorem servo_play_armed (now : Nat) (s : Legacy.ServoState)
    (h : s.timerCreated = true) :
    (Legacy.servo_play now s).1.armed = [now + SERVO_AUTO_RETURN_MS] := by
  simp [Legacy.servo_play, Legacy.servo_start_timer, Legacy.esp_timer_stop,
    Legacy.esp_timer_start_once, h]

/-- Auxiliary: `servo_rest` always disarms every deadline (when the timer
object exists). -/
theorem servo_rest_armed (s : Legacy.ServoState) (h : s.timerCreated = true) :
    (Legacy.servo_rest s).1.armed = [] := by
  simp [Legacy.servo_rest, Legacy.servo_cancel_timer, Legacy.esp_timer_stop, h]

/-- Auxiliary: no operation changes whether the timer object exists. -/
theorem stepOp_timerCreated (o : Legacy.Op × Nat) (s : Legacy.ServoState) :
    (Legacy.stepOp o s).1.timerCreated = s.timerCreated := by
  obtain ⟨op, now⟩ := o
  cases op <;>
    simp only [Legacy.stepOp, Legacy.servo_play, Legacy.servo_rest,
      Legacy.servo_toggle, Legacy.servo_start_timer, Legacy.servo_cancel_timer,
      Legacy.esp_timer_stop, Legacy.esp_timer_start_once] <;>
    split_ifs <;> simp_all

/-- Auxiliary: one operation preserves "at most one armed deadline". -/
theorem stepOp_armed_le_one (o : Legacy.Op × Nat) (s : Legacy.ServoState)
    (h : s.armed.length ≤ 1) : (Legacy.stepOp o s).1.armed.length ≤ 1 := by
  obtain ⟨op, now⟩ := o
  cases op <;>
    simp only [Legacy.stepOp, Legacy.servo_play, Legacy.servo_rest,
      Legacy.servo_toggle, Legacy.servo_start_timer, Legacy.servo_cancel_timer,
      Legacy.esp_timer_stop, Legacy.esp_timer_start_once] <;>
    split_ifs <;> simp_all

/-- Claim C2, amended: For every state of the actuator timing controller with at
most one armed deadline, any sequence of `press`/`release`/`toggle` operations
leaves at most one auto-release deadline armed (no deadline is ever stacked):
`release()` cancels any outstanding deadline before commanding the facade, and
a fresh `press()` stops the old timer before arming the new one
(stop-then-start) — although `press()` issues its facade position command
*before* the cancel — so an old deadline never stays armed past a deliberate
new command. -/
theorem servo_at_most_one_deadline (ops : List (Legacy.Op × Nat))
    (s : Legacy.ServoState) (h : s.armed.length ≤ 1) :
    (Legacy.runServo s ops).armed.length ≤ 1 ∧
    (s.timerCreated = true →
      (Legacy.servo_rest s).2.head? = some Eff.timerStop ∧
      (Legacy.servo_rest s).1.armed = [] ∧
      ∀ now : Nat, (Legacy.servo_play now s).1.armed
        = [now + SERVO_AUTO_RETURN_MS]) := by
  constructor
  · induction ops generalizing s with
    | nil => exact h
    | cons o tl ih => exact ih _ (stepOp_armed_le_one o s h)
  · intro hc
    refine ⟨?_, servo_rest_armed s hc, fun now => servo_play_armed now s hc⟩
    simp [Legacy.servo_rest, Legacy.servo_cancel_timer, Legacy.esp_timer_stop, hc]

/-- Witness for C2 (amended) on a concrete armed state and operation list. -/
theorem servo_at_most_one_deadline_witness :
    (Legacy.runServo legacyArmedRest
        [(Legacy.Op.play, 100), (Legacy.Op.toggle, 300),
          (Legacy.Op.rest, 400)]).armed.length ≤ 1 ∧
    (legacyArmedRest.timerCreated = true →
      (Legacy.servo_rest legacyArmedRest).2.head? = some Eff.timerStop ∧
      (Legacy.servo_rest legacyArmedRest).1.armed = [] ∧
      ∀ now : Nat, (Legacy.servo_play now legacyArmedRest).1.armed
        = [now + SERVO_AUTO_RETURN_MS]) :=
  servo_at_most_one_deadline _ legacyArmedRest (by decide)

/-- Claim C3, counterexample: The claim says calling `release()` twice in a row
issues exactly one position command to the facade.  `servo_rest` (and the
Arduino `servoRest`) calls `servo_set_angle(SERVO_REST_ANGLE)` unconditionally,
so two consecutive releases issue two position commands, not one. -/
theorem servo_rest_twice_two_commands :
    countSetDuty ((Legacy.servo_rest legacyArmedPressed).2
      ++ (Legacy.servo_rest (Legacy.servo_rest legacyArmedPressed).1).2) ≠ 1 := by
  decide

/-- Claim C3, amended: `release()` is idempotent *in state*: a second
consecutive `release()` leaves the state unchanged, and calling it while
already at rest is harmless — but each call unconditionally issues one
position command, always to the same rest position, so two calls in a row
issue two identical rest commands rather than one. -/
theorem servo_rest_idempotent (s : Legacy.ServoState) :
    (Legacy.servo_rest (Legacy.servo_rest s).1).1 = (Legacy.servo_rest s).1 ∧
    countSetDuty (Legacy.servo_rest s).2 = 1 ∧
    countSetDuty (Legacy.servo_rest (Legacy.servo_rest s).1).2 = 1 ∧
    (Legacy.servo_rest (Legacy.servo_rest s).1).2.filter isSetDuty
      = [Eff.setDuty (servoDuty SERVO_REST_ANGLE)] ∧
    (Legacy.servo_rest s).2.filter isSetDuty
      = [Eff.setDuty (servoDuty SERVO_REST_ANGLE)] := by
  simp only [Legacy.servo_rest, Legacy.servo_cancel_timer, Legacy.esp_timer_stop,
    servo_set_angle, countSetDuty]
  split_ifs <;> simp_all [isSetDuty]

/-- Claim C4, counterexample: The claim says a second `press()` made while
already pressed with an active deadline does not re-command the facade.  From
the pressed-with-deadline state, `servo_play` (and the Arduino `servoPlay`)
unconditionally calls `servo_set_angle(SERVO_TARGET_ANGLE)` again even though
the position does not change. -/
theorem servo_play_recommands_facade :
    (Legacy.servo_play 900 legacyArmedPressed).1.at_target
        = legacyArmedPressed.at_target ∧
    countSetDuty (Legacy.servo_play 900 legacyArmedPressed).2 ≠ 0 := by
  decide

/-- Claim C4, amended: Calling `press` twice in a row without an intervening
`release()` re-arms the auto-release deadline afresh (the second call's
deadline replaces the first), and each call — including the second, made while
already pressed with an active deadline — unconditionally re-issues the same
target-position command to the facade. -/
theorem servo_play_twice (s : Legacy.ServoState) (t1 t2 : Nat)
    (h : s.timerCreated = true) :
    (Legacy.servo_play t1 s).1.at_target = true ∧
    (Legacy.servo_play t1 s).1.armed = [t1 + SERVO_AUTO_RETURN_MS] ∧
    (Legacy.servo_play t2 (Legacy.servo_play t1 s).1).1.armed
      = [t2 + SERVO_AUTO_RETURN_MS] ∧
    countSetDuty (Legacy.servo_play t2 (Legacy.servo_play t1 s).1).2 = 1 ∧
    (Legacy.servo_play t2 (Legacy.servo_play t1 s).1).2.filter isSetDuty
      = [Eff.setDuty (servoDuty SERVO_TARGET_ANGLE)] := by
  simp only [Legacy.servo_play, Legacy.servo_start_timer, Legacy.esp_timer_stop,
    Legacy.esp_timer_start_once, servo_set_angle, countSetDuty]
  split_ifs
  simp_all [isSetDuty]

/-- Witness for C4 (amended): double press at t = 0 ms and t = 700 ms from the
rest state with an old deadline armed. -/
theorem servo_play_twice_witness :
    (Legacy.servo_play 0 legacyArmedRest).1.at_target = true ∧
    (Legacy.servo_play 0 legacyArmedRest).1.armed = [0 + SERVO_AUTO_RETURN_MS] ∧
    (Legacy.servo_play 700 (Legacy.servo_play 0 legacyArmedRest).1).1.armed
      = [700 + SERVO_AUTO_RETURN_MS] ∧
    countSetDuty (Legacy.servo_play 700 (Legacy.servo_play 0 legacyArmedRest).1).2 = 1 ∧
    (Legacy.servo_play 700 (Legacy.servo_play 0 legacyArmedRest).1).2.filter isSetDuty
      = [Eff.setDuty (servoDuty SERVO_TARGET_ANGLE)] :=
  servo_play_twice legacyArmedRest 0 700 (by decide)

/-! ## Arduino variant: `src/zigbee_switch/zigbee_switch.ino`

Servo timing logic (`servoPlay` / `servoRest` / `servoReturnCallback` and the
`servoAutoReturnPending` flag consumed by `loop()`), the Zigbee report helpers
(`reportOnOff` / `reportLevel` / `reportLightState`), the button classifier
(`checkButton`), the pairing state machine (`updatePairingState`) and the
deep-sleep wake handling (`handleWakeup`). -/

def ESP_ZB_ZCL_CLUSTER_ID_ON_OFF : Nat := 6

def ESP_ZB_ZCL_ATTR_ON_OFF_ON_OFF_ID : Nat := 0

def ESP_ZB_ZCL_CLUSTER_ID_LEVEL_CONTROL : Nat := 8

def ESP_ZB_ZCL_ATTR_LEVEL_CONTROL_CURRENT_LEVEL_ID : Nat := 0

namespace ZigbeeSwitch

def PAIRING_TIMEOUT_MS : Nat := 40000

def LONG_PRESS_MS : Nat := 3000

def DEBOUNCE_MS : Nat := 100

/-- Mutable globals of the sketch that the modelled functions touch:
`servoAutoReturnPending` (the cross-context flag), the one-shot `servoTimer`
(as the list of armed absolute deadlines plus creation flag), the light's
on/off attribute, and `Zigbee.connected()`. -/
structure ZState where
  pending : Bool
  armed : List Nat
  timerCreated : Bool
  lightOn : Bool
  connected : Bool
  deriving DecidableEq

/-- `servoReturnCallback`: timer-expiry callback.  It only sets
`servoAutoReturnPending = true`; processing happens in `loop()`. -/
def servoReturnCallback (s : ZState) : ZState × List Eff :=
  ({ s with pending := true }, [])

/-- `servoPlay`: command the target angle, then stop/restart the auto-return
one-shot timer (guarded by `servoTimer != NULL`). -/
def servoPlay (now : Nat) (s : ZState) : ZState × List Eff :=
  let tr0 := servo_set_angle SERVO_TARGET_ANGLE
  if s.timerCreated then
    ({ s with armed := [now + SERVO_AUTO_RETURN_MS] },
      tr0 ++ [.timerStop, .timerStart SERVO_AUTO_RETURN_MS])
  else (s, tr0)

/-- `servoRest`: stop the timer, then command the rest angle. -/
def servoRest (s : ZState) : ZState × List Eff :=
  if s.timerCreated then
    ({ s with armed := [] }, .timerStop :: servo_set_angle SERVO_REST_ANGLE)
  else (s, servo_set_angle SERVO_REST_ANGLE)

/-- `reportOnOff`: acquire the Zigbee lock, issue the single On/Off report
request, release the lock; only afterwards is the request's status `ret`
examined (so the error path also releases).  `ret` models the
`esp_zb_zcl_report_attr_cmd_req` return status. -/
def reportOnOff (ret : Bool) : Bool × List Eff :=
  (ret, [.lockAcquire,
    .reportReq ESP_ZB_ZCL_CLUSTER_ID_ON_OFF ESP_ZB_ZCL_ATTR_ON_OFF_ON_OFF_ID,
    .lockRelease])

/-- `reportLevel`: same scoped lock pattern for the Level attribute. -/
def reportLevel (ret : Bool) : Bool × List Eff :=
  (ret, [.lockAcquire,
    .reportReq ESP_ZB_ZCL_CLUSTER_ID_LEVEL_CONTROL
      ESP_ZB_ZCL_ATTR_LEVEL_CONTROL_CURRENT_LEVEL_ID,
    .lockRelease])

/-- `reportLightState`: skip entirely when not connected, otherwise report
On/Off then Level. -/
def reportLightState (connected retOn retLv : Bool) : List Eff :=
  if connected then (reportOnOff retOn).2 ++ (reportLevel retLv).2 else []

/-- `turnLightOff`: `zbLight.setLightState(false)`, LED off, `servoRest()`,
then `reportLightState()`. -/
def turnLightOff (retOn retLv : Bool) (s : ZState) : ZState × List Eff :=
  let s0 := { s with lightOn := false }
  let (s1, trRest) := servoRest s0
  (s1, .zbSetLight false :: .ledWrite 0 0 0 ::
    (trRest ++ reportLightState s1.connected retOn retLv))

/-- Step 1 of `loop()`: consume `servoAutoReturnPending` — clear the flag and
call `turnLightOff()` (which performs the release via `servoRest`). -/
def loopAutoReturn (retOn retLv : Bool) (s : ZState) : ZState × List Eff :=
  if s.pending then turnLightOff retOn retLv { s with pending := false }
  else (s, [])

end ZigbeeSwitch

/-- A concrete sketch state: pressed with the auto-return flag just raised by
the timer callback. -/
def zsPendingState : ZigbeeSwitch.ZState :=
  { pending := true, armed := [], timerCreated := true,
    lightOn := true, connected := true }

/-- Claim C1, amended: In the `zigbee_switch.ino` variant the claim holds: the
timer-expiry callback `servoReturnCallback` performs no effect at all beyond
setting the `servoAutoReturnPending` flag to true (in particular it never
commands the actuator driver facade), and the consumer step at the top of
`loop()` observes the flag, clears it, and performs the release (a rest
position command) via `turnLightOff`/`servoRest`.  In the legacy and H2
variants, by contrast, the timer callback commands the facade directly (see
the counterexample `servo_return_callback_commands_facade`). -/
theorem servoReturnCallback_flag_only (s : ZigbeeSwitch.ZState)
    (retOn retLv : Bool) (h : s.pending = true) :
    (ZigbeeSwitch.servoReturnCallback s).2 = [] ∧
    (ZigbeeSwitch.servoReturnCallback s).1 = { s with pending := true } ∧
    (ZigbeeSwitch.loopAutoReturn retOn retLv s).1.pending = false ∧
    Eff.setDuty (servoDuty SERVO_REST_ANGLE)
      ∈ (ZigbeeSwitch.loopAutoReturn retOn retLv s).2 := by
  refine ⟨rfl, rfl, ?_, ?_⟩ <;>
    simp only [ZigbeeSwitch.loopAutoReturn, ZigbeeSwitch.turnLightOff,
      ZigbeeSwitch.servoRest, servo_set_angle, h, if_true] <;>
    split_ifs <;> simp_all

/-- Witness for C1 (amended) at a concrete pending state. -/
theorem servoReturnCallback_flag_only_witness :
    (ZigbeeSwitch.servoReturnCallback zsPendingState).2 = [] ∧
    (ZigbeeSwitch.servoReturnCallback zsPendingState).1
      = { zsPendingState with pending := true } ∧
    (ZigbeeSwitch.loopAutoReturn true true zsPendingState).1.pending = false ∧
    Eff.setDuty (servoDuty SERVO_REST_ANGLE)
      ∈ (ZigbeeSwitch.loopAutoReturn true true zsPendingState).2 :=
  servoReturnCallback_flag_only zsPendingState true true (by decide)

/-! ## Report sends and the Zigbee lock (`esp_zb_lock_acquire` /
`esp_zb_lock_release`) -/

namespace MainC

/-- `report_attribute` in `src/main/main.c`: builds the On/Off report command
and issues `esp_zb_zcl_report_attr_cmd_req` with no lock around it. -/
def report_attribute : List Eff :=
  [.reportReq ESP_ZB_ZCL_CLUSTER_ID_ON_OFF ESP_ZB_ZCL_ATTR_ON_OFF_ON_OFF_ID]

end MainC

namespace Legacy

/-- `report_attribute` in `src/legacy_esp_idf/main/main.c`: same shape —
the report request is issued with no lock around it. -/
def report_attribute : List Eff :=
  [.reportReq ESP_ZB_ZCL_CLUSTER_ID_ON_OFF ESP_ZB_ZCL_ATTR_ON_OFF_ON_OFF_ID]

end Legacy

/-- Scan of a trace checking the scoped exclusive-access discipline for report
requests: regions are properly bracketed and unnested, every report request
happens with the lock held, each region performs exactly one request, and the
lock is released by the end of the trace (`held` = lock currently held,
`n` = requests seen in the current region). -/
def locksOk (held : Bool) (n : Nat) : List Eff → Bool
  | [] => !held
  | .lockAcquire :: tr => !held && locksOk true 0 tr
  | .lockRelease :: tr => held && n == 1 && locksOk false 0 tr
  | .reportReq _ _ :: tr => held && locksOk held (n + 1) tr
  | _ :: tr => locksOk held n tr

/-- A trace obeys the scoped report discipline when scanned from the unlocked
state. -/
def scopedReportDiscipline (tr : List Eff) : Bool := locksOk false 0 tr

/-- Claim C8, counterexample: The claim says no state report is ever sent
without holding the stack's lock.  `report_attribute` in `src/main/main.c`
(and identically in `src/legacy_esp_idf/main/main.c`) issues the On/Off report
request with no `esp_zb_lock_acquire`/`esp_zb_lock_release` around it — even
though it is called from the button task, a different task than the Zigbee
stack's. -/
theorem report_attribute_unlocked :
    (Eff.reportReq ESP_ZB_ZCL_CLUSTER_ID_ON_OFF ESP_ZB_ZCL_ATTR_ON_OFF_ON_OFF_ID
        ∈ MainC.report_attribute) ∧
    scopedReportDiscipline MainC.report_attribute = false ∧
    scopedReportDiscipline Legacy.report_attribute = false := by
  decide

/-- Claim C8, amended: In the `zigbee_switch.ino` variant every report send is
performed inside the scoped exclusive-access region: `reportOnOff` and
`reportLevel` acquire the lock, perform exactly one report request while it is
held, and release it on every exit path — the request's error status is
examined only after the release, so the error path frees the lock too — and
`reportLightState` composes them correctly for both connected values.  The
`src/main/main.c` and `src/legacy_esp_idf/main/main.c` variants, however, send
their report without taking the lock at all (see the counterexample). -/
theorem zigbee_reports_locked (retOn retLv connected : Bool) :
    scopedReportDiscipline (ZigbeeSwitch.reportOnOff retOn).2 = true ∧
    scopedReportDiscipline (ZigbeeSwitch.reportLevel retLv).2 = true ∧
    (ZigbeeSwitch.reportOnOff retOn).1 = retOn ∧
    scopedReportDiscipline
      (ZigbeeSwitch.reportLightState connected retOn retLv) = true := by
  cases retOn <;> cases retLv <;> cases connected <;> decide

/-! ## Legacy button task, release handling (Tap consumption) -/

namespace Legacy

/-- The confirmed-release branch of `button_task`
(`src/legacy_esp_idf/main/main.c` lines 351–374): a long press performs the
factory reset; a short press (Tap) performs `servo_toggle()` and then
`report_attribute()` — the latter only when `g_zigbee_connected`. -/
def button_release (long_press_handled connected : Bool) (now : Nat)
    (s : ServoState) : ServoState × List Eff :=
  if long_press_handled then (s, [.factoryReset])
  else
    let (s1, tr1) := servo_toggle now s
    (s1, tr1 ++ if connected then report_attribute else [])

end Legacy

/-- Claim C9: When the legacy node coordinator consumes a Tap (a confirmed
release with no long press pending), it performs `toggle()` — the actuator
position flips and exactly one facade position command is issued — and it
sends a state report if and only if the node is currently joined
(`g_zigbee_connected`); a Tap while unjoined still toggles but reports
nothing. -/
theorem tap_toggles_and_reports_iff_joined (connected : Bool) (now : Nat)
    (s : Legacy.ServoState) :
    (Legacy.button_release false connected now s).1.at_target
        = !s.at_target ∧
    countSetDuty (Legacy.button_release false connected now s).2 = 1 ∧
    ((Eff.reportReq ESP_ZB_ZCL_CLUSTER_ID_ON_OFF ESP_ZB_ZCL_ATTR_ON_OFF_ON_OFF_ID
        ∈ (Legacy.button_release false connected now s).2) ↔ connected = true) := by
  simp only [Legacy.button_release, Legacy.servo_toggle, Legacy.servo_play,
    Legacy.servo_rest, Legacy.servo_start_timer, Legacy.servo_cancel_timer,
    Legacy.esp_timer_stop, Legacy.esp_timer_start_once, Legacy.report_attribute,
    servo_set_angle, countSetDuty]
  cases connected <;> split_ifs <;>
    simp_all [isSetDuty, ESP_ZB_ZCL_CLUSTER_ID_ON_OFF,
      ESP_ZB_ZCL_ATTR_ON_OFF_ON_OFF_ID]

/-! ## Input classifier: `checkButton` in `src/zigbee_switch/zigbee_switch.ino`

`checkButton` is polled from `loop()`; its static locals are the classifier
state.  `millis()` is sampled once per poll (the multiple C calls within one
poll are microseconds apart).  The episode theorems quantify over arbitrary
poll instants, reflecting the bounded-interval polling of the claim. -/

/-- The `ButtonAction` enum of the sketch. -/
inductive ButtonAction where
  | BUTTON_NONE
  | BUTTON_SHORT_PRESS
  | BUTTON_LONG_PRESS
  deriving DecidableEq

namespace ZigbeeSwitch

/-- The static locals of `checkButton`. -/
structure BtnState where
  wasPressed : Bool
  pressStartTime : Nat
  longPressHandled : Bool
  deriving DecidableEq

/-- `checkButton`, one poll: `isPressed` is `digitalRead(BUTTON_PIN) == LOW`,
`now` is `millis()`. -/
def checkButton (isPressed : Bool) (now : Nat) (s : BtnState) :
    BtnState × ButtonAction :=
  if isPressed && !s.wasPressed then
    ({ wasPressed := true, pressStartTime := now, longPressHandled := false },
      .BUTTON_NONE)
  else if isPressed && s.wasPressed then
    if !s.longPressHandled && decide (LONG_PRESS_MS < now - s.pressStartTime) then
      ({ s with longPressHandled := true }, .BUTTON_LONG_PRESS)
    else (s, .BUTTON_NONE)
  else if !isPressed && s.wasPressed then
    ({ s with wasPressed := false },
      if !s.longPressHandled && decide (DEBOUNCE_MS < now - s.pressStartTime) then
        .BUTTON_SHORT_PRESS
      else .BUTTON_NONE)
  else (s, .BUTTON_NONE)

/-- Poll `checkButton` over a list of `(isPressed, millis)` samples. -/
def runButton (s : BtnState) : List (Bool × Nat) → BtnState × List ButtonAction
  | [] => (s, [])
  | (p, t) :: tl =>
    let (s1, a) := checkButton p t s
    let (s2, acts) := runButton s1 tl
    (s2, a :: acts)

/-- Classifier state right after a confirmed press edge at `t0`. -/
def heldState (t0 : Nat) : BtnState :=
  { wasPressed := true, pressStartTime := t0, longPressHandled := false }

/-- Classifier state after the long hold has been reported. -/
def crossedState (t0 : Nat) : BtnState :=
  { wasPressed := true, pressStartTime := t0, longPressHandled := true }

end ZigbeeSwitch

/-- The non-`BUTTON_NONE` events of a poll outcome list. -/
def buttonEvents (tr : List ButtonAction) : List ButtonAction :=
  tr.filter fun a => decide (a ≠ ButtonAction.BUTTON_NONE)

/-- The events of one complete press–release episode: a press edge at `t0`,
held polls at the instants in `held`, and a release poll at `tRel`, starting
from the idle classifier state. -/
def episodeEvents (t0 : Nat) (held : List Nat) (tRel : Nat) : List ButtonAction :=
  buttonEvents (ZigbeeSwitch.runButton
    { wasPressed := false, pressStartTime := 0, longPressHandled := false }
    ((true, t0) :: (held.map fun t => (true, t)) ++ [(false, tRel)])).2

theorem buttonEvents_nil : buttonEvents [] = [] := rfl

theorem buttonEvents_cons_none (tr : List ButtonAction) :
    buttonEvents (ButtonAction.BUTTON_NONE :: tr) = buttonEvents tr := by
  simp [buttonEvents]

theorem runButton_append (s : ZigbeeSwitch.BtnState) (l1 l2 : List (Bool × Nat)) :
    ZigbeeSwitch.runButton s (l1 ++ l2)
      = ((ZigbeeSwitch.runButton (ZigbeeSwitch.runButton s l1).1 l2).1,
        (ZigbeeSwitch.runButton s l1).2
          ++ (ZigbeeSwitch.runButton (ZigbeeSwitch.runButton s l1).1 l2).2) := by
  induction l1 generalizing s with
  | nil => simp [ZigbeeSwitch.runButton]
  | cons hd tl ih =>
    obtain ⟨p, t⟩ := hd
    simp [ZigbeeSwitch.runButton, ih]

/-- While held below the long-press threshold, each poll leaves the classifier
in `heldState` and emits nothing. -/
theorem runButton_held_low (t0 : Nat) (held : List Nat)
    (h : ∀ t ∈ held, t - t0 ≤ ZigbeeSwitch.LONG_PRESS_MS) :
    ZigbeeSwitch.runButton (ZigbeeSwitch.heldState t0)
        (held.map fun t => (true, t))
      = (ZigbeeSwitch.heldState t0, held.map fun _ => ButtonAction.BUTTON_NONE) := by
  induction held with
  | nil => rfl
  | cons t tl ih =>
    have ht : t - t0 ≤ ZigbeeSwitch.LONG_PRESS_MS := h t (by simp)
    have hstep : ZigbeeSwitch.checkButton true t (ZigbeeSwitch.heldState t0)
        = (ZigbeeSwitch.heldState t0, ButtonAction.BUTTON_NONE) := by
      simp [ZigbeeSwitch.checkButton, ZigbeeSwitch.heldState]
      omega
    simp [ZigbeeSwitch.runButton, hstep, ih fun x hx => h x (by simp [hx])]

/-- After the long hold was reported, held polls emit nothing. -/
theorem runButton_held_crossed (t0 : Nat) (held : List Nat) :
    ZigbeeSwitch.runButton (ZigbeeSwitch.crossedState t0)
        (held.map fun t => (true, t))
      = (ZigbeeSwitch.crossedState t0, held.map fun _ => ButtonAction.BUTTON_NONE) := by
  induction held with
  | nil => rfl
  | cons t tl ih =>
    have hstep : ZigbeeSwitch.checkButton true t (ZigbeeSwitch.crossedState t0)
        = (ZigbeeSwitch.crossedState t0, ButtonAction.BUTTON_NONE) := by
      simp [ZigbeeSwitch.checkButton, ZigbeeSwitch.crossedState]
    simp [ZigbeeSwitch.runButton, hstep, ih]

theorem buttonEvents_map_none (held : List Nat) :
    buttonEvents (held.map fun _ => ButtonAction.BUTTON_NONE) = [] := by
  induction held with
  | nil => rfl
  | cons t tl ih => simpa [buttonEvents_cons_none] using ih

/-- Once some held poll crosses the long-press threshold, the run over the
held polls emits exactly one `BUTTON_LONG_PRESS` and ends with the long hold
recorded as handled. -/
theorem runButton_held_cross (t0 : Nat) (held : List Nat)
    (h : ∃ t ∈ held, ZigbeeSwitch.LONG_PRESS_MS < t - t0) :
    (ZigbeeSwitch.runButton (ZigbeeSwitch.heldState t0)
        (held.map fun t => (true, t))).1 = ZigbeeSwitch.crossedState t0 ∧
    buttonEvents (ZigbeeSwitch.runButton (ZigbeeSwitch.heldState t0)
        (held.map fun t => (true, t))).2 = [ButtonAction.BUTTON_LONG_PRESS] := by
  induction held with
  | nil => simp at h
  | cons t tl ih =>
    by_cases hc : ZigbeeSwitch.LONG_PRESS_MS < t - t0
    · have hstep : ZigbeeSwitch.checkButton true t (ZigbeeSwitch.heldState t0)
          = (ZigbeeSwitch.crossedState t0, ButtonAction.BUTTON_LONG_PRESS) := by
        simp [ZigbeeSwitch.checkButton, ZigbeeSwitch.heldState,
          ZigbeeSwitch.crossedState, hc]
      simp [ZigbeeSwitch.runButton, hstep, runButton_held_crossed,
        buttonEvents, buttonEvents_map_none, List.filter_map]
    · have hstep : ZigbeeSwitch.checkButton true t (ZigbeeSwitch.heldState t0)
          = (ZigbeeSwitch.heldState t0, ButtonAction.BUTTON_NONE) := by
        simp [ZigbeeSwitch.checkButton, ZigbeeSwitch.heldState]
        omega
      have htl : ∃ x ∈ tl, ZigbeeSwitch.LONG_PRESS_MS < x - t0 := by
        rcases h with ⟨x, hx, hxc⟩
        rcases List.mem_cons.mp hx with rfl | hx'
        · exact absurd hxc hc
        · exact ⟨x, hx', hxc⟩
      obtain ⟨ih1, ih2⟩ := ih htl
      simp [ZigbeeSwitch.runButton, hstep, ih1, buttonEvents_cons_none, ih2]

theorem buttonEvents_append (l1 l2 : List ButtonAction) :
    buttonEvents (l1 ++ l2) = buttonEvents l1 ++ buttonEvents l2 := by
  simp [buttonEvents]

/-- Claim C5, amended: in the `zigbee_switch.ino` variant the input classifier
`checkButton`, polled at the given instants, classifies every complete
press–release episode into exactly one outcome:
(1) a hold below the debounce floor followed by release emits no event;
(2) a hold between the debounce floor and the long-hold threshold followed by
release emits exactly one short press (Tap); (3) a hold that is observed past
the long-hold threshold emits exactly one long press at the poll that crosses
the threshold, and the later release emits nothing further.  The `button_task`
classifier of `src/main/main.c`, also cited by the claim, violates outcome (1):
see the counterexample `button_task_bounce_emits_event` further below. -/
theorem checkButton_episode (t0 : Nat) (held : List Nat) (tRel : Nat) :
    ((∀ t ∈ held, t - t0 ≤ ZigbeeSwitch.DEBOUNCE_MS) →
      tRel - t0 ≤ ZigbeeSwitch.DEBOUNCE_MS →
        episodeEvents t0 held tRel = []) ∧
    ((∀ t ∈ held, t - t0 ≤ ZigbeeSwitch.LONG_PRESS_MS) →
      ZigbeeSwitch.DEBOUNCE_MS < tRel - t0 →
      tRel - t0 ≤ ZigbeeSwitch.LONG_PRESS_MS →
        episodeEvents t0 held tRel = [ButtonAction.BUTTON_SHORT_PRESS]) ∧
    ((∃ t ∈ held, ZigbeeSwitch.LONG_PRESS_MS < t - t0) →
        episodeEvents t0 held tRel = [ButtonAction.BUTTON_LONG_PRESS]) := by
  have hfirst : ZigbeeSwitch.checkButton true t0
      { wasPressed := false, pressStartTime := 0, longPressHandled := false }
      = (ZigbeeSwitch.heldState t0, ButtonAction.BUTTON_NONE) := by
    simp [ZigbeeSwitch.checkButton, ZigbeeSwitch.heldState]
  refine ⟨?_, ?_, ?_⟩
  · intro hH hR
    have hH3 : ∀ t ∈ held, t - t0 ≤ ZigbeeSwitch.LONG_PRESS_MS := by
      intro t ht
      have := hH t ht
      simp only [ZigbeeSwitch.DEBOUNCE_MS] at this
      simp only [ZigbeeSwitch.LONG_PRESS_MS]
      omega
    have hrel : ZigbeeSwitch.checkButton false tRel (ZigbeeSwitch.heldState t0)
        = ({ ZigbeeSwitch.heldState t0 with wasPressed := false },
          ButtonAction.BUTTON_NONE) := by
      simp [ZigbeeSwitch.checkButton, ZigbeeSwitch.heldState]
      omega
    simp [episodeEvents, ZigbeeSwitch.runButton, hfirst, runButton_append,
      runButton_held_low t0 held hH3, hrel, buttonEvents_cons_none,
      buttonEvents_append, buttonEvents_map_none, buttonEvents]
  · intro hH h1 h2
    have hrel : ZigbeeSwitch.checkButton false tRel (ZigbeeSwitch.heldState t0)
        = ({ ZigbeeSwitch.heldState t0 with wasPressed := false },
          ButtonAction.BUTTON_SHORT_PRESS) := by
      simp [ZigbeeSwitch.checkButton, ZigbeeSwitch.heldState]
      omega
    simp [episodeEvents, ZigbeeSwitch.runButton, hfirst, runButton_append,
      runButton_held_low t0 held hH, hrel, buttonEvents_cons_none,
      buttonEvents_append, buttonEvents_map_none, buttonEvents]
  · intro hC
    obtain ⟨hs, he⟩ := runButton_held_cross t0 held hC
    have hrel : ZigbeeSwitch.checkButton false tRel (ZigbeeSwitch.crossedState t0)
        = ({ ZigbeeSwitch.crossedState t0 with wasPressed := false },
          ButtonAction.BUTTON_NONE) := by
      simp [ZigbeeSwitch.checkButton, ZigbeeSwitch.crossedState]
    simp [episodeEvents, ZigbeeSwitch.runButton, hfirst, runButton_append,
      hs, hrel, buttonEvents_cons_none, buttonEvents_append, he]
    simp [buttonEvents]

/-- Witness for C5: an 800 ms hold polled at 150 ms intervals produces one
Tap. -/
theorem checkButton_episode_witness :
    episodeEvents 0 [150, 300, 450, 600, 750] 800
      = [ButtonAction.BUTTON_SHORT_PRESS] :=
  (checkButton_episode 0 [150, 300, 450, 600, 750] 800).2.1
    (by decide) (by decide) (by decide)

/-! ## Commissioning (pairing) state machine: `updatePairingState` in
`src/zigbee_switch/zigbee_switch.ino`

In the `PAIRING_FAILED` state the sketch shows the failure LED and calls
`enterDeepSleep()`, which never returns; the model therefore keeps the state
`PAIRING_FAILED` on any further step. -/

namespace ZigbeeSwitch

/-- The `PairingState` enum of the sketch. -/
inductive PairingState where
  | PAIRING_IDLE
  | PAIRING_IN_PROGRESS
  | PAIRING_FAILED
  deriving DecidableEq

/-- The pairing-related fields of the sketch's `DeviceState`. -/
structure DeviceState where
  pairing : PairingState
  pairingStartTime : Nat
  deriving DecidableEq

/-- `updatePairingState`, one coordinator tick: `connected` is
`Zigbee.connected()`, `now` is `millis()`. -/
def updatePairingState (connected : Bool) (now : Nat) (s : DeviceState) :
    DeviceState :=
  let elapsed := now - s.pairingStartTime
  match s.pairing with
  | .PAIRING_IDLE =>
    if !connected then
      { pairing := .PAIRING_IN_PROGRESS, pairingStartTime := now }
    else s
  | .PAIRING_IN_PROGRESS =>
    if connected then { s with pairing := .PAIRING_IDLE }
    else if PAIRING_TIMEOUT_MS < elapsed then
      { s with pairing := .PAIRING_FAILED }
    else s
  | .PAIRING_FAILED => s

/-- Run the pairing machine over a list of `(connected, millis)` ticks. -/
def runPairing (s : DeviceState) : List (Bool × Nat) → DeviceState
  | [] => s
  | (c, t) :: tl => runPairing (updatePairingState c t s) tl

/-- How many ticks of the run transition into `PAIRING_FAILED`. -/
def failedTransitions (s : DeviceState) : List (Bool × Nat) → Nat
  | [] => 0
  | (c, t) :: tl =>
    let s1 := updatePairingState c t s
    (if s.pairing ≠ .PAIRING_FAILED ∧ s1.pairing = .PAIRING_FAILED then 1 else 0)
      + failedTransitions s1 tl

end ZigbeeSwitch

theorem runPairing_append (s : ZigbeeSwitch.DeviceState)
    (l1 l2 : List (Bool × Nat)) :
    ZigbeeSwitch.runPairing s (l1 ++ l2)
      = ZigbeeSwitch.runPairing (ZigbeeSwitch.runPairing s l1) l2 := by
  induction l1 generalizing s with
  | nil => rfl
  | cons hd tl ih =>
    obtain ⟨c, t⟩ := hd
    simp [ZigbeeSwitch.runPairing, ih]

theorem failedTransitions_append (s : ZigbeeSwitch.DeviceState)
    (l1 l2 : List (Bool × Nat)) :
    ZigbeeSwitch.failedTransitions s (l1 ++ l2)
      = ZigbeeSwitch.failedTransitions s l1
        + ZigbeeSwitch.failedTransitions (ZigbeeSwitch.runPairing s l1) l2 := by
  induction l1 generalizing s with
  | nil => simp [ZigbeeSwitch.failedTransitions, ZigbeeSwitch.runPairing]
  | cons hd tl ih =>
    obtain ⟨c, t⟩ := hd
    simp [ZigbeeSwitch.failedTransitions, ZigbeeSwitch.runPairing, ih]
    omega

/-- While seeking and before the timeout, unconnected ticks change nothing. -/
theorem runPairing_seeking_steady (T : Nat) (ta : List Nat)
    (h : ∀ t ∈ ta, t - T ≤ ZigbeeSwitch.PAIRING_TIMEOUT_MS) :
    ZigbeeSwitch.runPairing
        ⟨ZigbeeSwitch.PairingState.PAIRING_IN_PROGRESS, T⟩
        (ta.map fun t => (false, t))
      = ⟨ZigbeeSwitch.PairingState.PAIRING_IN_PROGRESS, T⟩ ∧
    ZigbeeSwitch.failedTransitions
        ⟨ZigbeeSwitch.PairingState.PAIRING_IN_PROGRESS, T⟩
        (ta.map fun t => (false, t)) = 0 := by
  induction ta with
  | nil => exact ⟨rfl, rfl⟩
  | cons t tl ih =>
    have ht : t - T ≤ ZigbeeSwitch.PAIRING_TIMEOUT_MS := h t (by simp)
    have hstep : ZigbeeSwitch.updatePairingState false t
        ⟨ZigbeeSwitch.PairingState.PAIRING_IN_PROGRESS, T⟩
        = ⟨ZigbeeSwitch.PairingState.PAIRING_IN_PROGRESS, T⟩ := by
      simp [ZigbeeSwitch.updatePairingState]
      omega
    obtain ⟨ih1, ih2⟩ := ih fun x hx => h x (by simp [hx])
    refine ⟨?_, ?_⟩
    · simp [ZigbeeSwitch.runPairing, hstep, ih1]
    · simp [ZigbeeSwitch.failedTransitions, hstep, ih2]

/-- `PAIRING_FAILED` is absorbing: the sketch sleeps there, so no later tick
leaves it or produces another transition into it. -/
theorem runPairing_failed_absorbing (s : ZigbeeSwitch.DeviceState)
    (inputs : List (Bool × Nat))
    (h : s.pairing = ZigbeeSwitch.PairingState.PAIRING_FAILED) :
    (ZigbeeSwitch.runPairing s inputs).pairing
      = ZigbeeSwitch.PairingState.PAIRING_FAILED ∧
    ZigbeeSwitch.failedTransitions s inputs = 0 := by
  induction inputs generalizing s with
  | nil => exact ⟨h, rfl⟩
  | cons hd tl ih =>
    obtain ⟨c, t⟩ := hd
    have hstep : ZigbeeSwitch.updatePairingState c t s = s := by
      obtain ⟨p, T⟩ := s
      cases p <;> simp_all [ZigbeeSwitch.updatePairingState]
    obtain ⟨ih1, ih2⟩ := ih s h
    refine ⟨?_, ?_⟩
    · simpa [ZigbeeSwitch.runPairing, hstep] using ih1
    · simp [ZigbeeSwitch.failedTransitions, hstep, ih2, h]

/-- Claim C6: From `PAIRING_IN_PROGRESS` (Seeking), any number of pre-timeout
unconnected ticks (the retries happening meanwhile do not appear in the
guard), followed by the first unconnected tick whose elapsed seeking time
exceeds `PAIRING_TIMEOUT_MS`, followed by anything at all: the machine ends in
`PAIRING_FAILED` and the run performs the transition into `PAIRING_FAILED`
exactly once. -/
theorem pairing_timeout_exactly_once (T tc : Nat) (ta : List Nat)
    (rest : List (Bool × Nat))
    (h1 : ∀ t ∈ ta, t - T ≤ ZigbeeSwitch.PAIRING_TIMEOUT_MS)
    (h2 : ZigbeeSwitch.PAIRING_TIMEOUT_MS < tc - T) :
    (ZigbeeSwitch.runPairing
        ⟨ZigbeeSwitch.PairingState.PAIRING_IN_PROGRESS, T⟩
        ((ta.map fun t => (false, t)) ++ (false, tc) :: rest)).pairing
      = ZigbeeSwitch.PairingState.PAIRING_FAILED ∧
    ZigbeeSwitch.failedTransitions
        ⟨ZigbeeSwitch.PairingState.PAIRING_IN_PROGRESS, T⟩
        ((ta.map fun t => (false, t)) ++ (false, tc) :: rest) = 1 := by
  obtain ⟨hs, hf⟩ := runPairing_seeking_steady T ta h1
  have hcross : ZigbeeSwitch.updatePairingState false tc
      ⟨ZigbeeSwitch.PairingState.PAIRING_IN_PROGRESS, T⟩
      = ⟨ZigbeeSwitch.PairingState.PAIRING_FAILED, T⟩ := by
    simp [ZigbeeSwitch.updatePairingState]
    omega
  obtain ⟨habs1, habs2⟩ := runPairing_failed_absorbing
    ⟨ZigbeeSwitch.PairingState.PAIRING_FAILED, T⟩ rest rfl
  refine ⟨?_, ?_⟩
  · simp [runPairing_append, hs, ZigbeeSwitch.runPairing, hcross, habs1]
  · simp [failedTransitions_append, hs, hf, ZigbeeSwitch.failedTransitions,
      hcross, habs2]

/-- Witness for C6: three pre-timeout ticks, the timeout tick at 40001 ms, and
two later ticks (one even reconnects) still yield exactly one transition. -/
theorem pairing_timeout_exactly_once_witness :
    (ZigbeeSwitch.runPairing
        ⟨ZigbeeSwitch.PairingState.PAIRING_IN_PROGRESS, 0⟩
        (([10000, 20000, 39000].map fun t => (false, t))
          ++ (false, 40001) :: [(false, 41000), (true, 42000)])).pairing
      = ZigbeeSwitch.PairingState.PAIRING_FAILED ∧
    ZigbeeSwitch.failedTransitions
        ⟨ZigbeeSwitch.PairingState.PAIRING_IN_PROGRESS, 0⟩
        (([10000, 20000, 39000].map fun t => (false, t))
          ++ (false, 40001) :: [(false, 41000), (true, 42000)]) = 1 :=
  pairing_timeout_exactly_once 0 40001 [10000, 20000, 39000]
    [(false, 41000), (true, 42000)] (by decide) (by decide)

/-! ## Deep-sleep wake handling: `handleWakeup` / `enterDeepSleep` in
`src/zigbee_switch/zigbee_switch.ino`

`enterDeepSleep` enables only the button GPIO as a wake source, so every wake
from this deep sleep reports `ESP_SLEEP_WAKEUP_GPIO`.  On such a wake
`handleWakeup` polls the button every 50 ms: it returns true (proceed to
commissioning) as soon as the hold exceeds `LONG_PRESS_MS`, and calls
`enterDeepSleep()` — which never returns — if the button is released first.
`holdMs` is how long the button stays pressed after the wake: the level read
at instant `t` is low exactly when `t < holdMs`. -/

namespace ZigbeeSwitch

/-- The `while (digitalRead(BUTTON_PIN) == LOW) { delay(50); if (millis() -
pressStart > LONG_PRESS_MS) return true; }` loop of `handleWakeup`,
started at `t = 0`. -/
def wakeHoldLoop (holdMs t : Nat) : Bool :=
  if holdMs ≤ t then false
  else if LONG_PRESS_MS < t + 50 then true
  else wakeHoldLoop holdMs (t + 50)
termination_by LONG_PRESS_MS + 50 - t
decreasing_by simp_all [LONG_PRESS_MS]; omega

/-- `esp_sleep_get_wakeup_cause()` outcome. -/
inductive WakeCause where
  | gpio
  | other
  deriving DecidableEq

/-- Whether boot continues into the sketch proper or the device is back in
deep sleep. -/
inductive BootFlow where
  | sleepAgain
  | proceed
  deriving DecidableEq

/-- `enterDeepSleep`: LED off, `servoRest()` (the timer exists, `servoInit`
ran first), then deep sleep. -/
def enterDeepSleep : List Eff :=
  .ledWrite 0 0 0 :: .timerStop :: servo_set_angle SERVO_REST_ANGLE
    ++ [.deepSleep]

/-- `handleWakeup`: on a GPIO wake, poll the hold; a qualifying long hold
proceeds, otherwise the device re-enters deep sleep (the call never returns).
A non-GPIO boot proceeds directly. -/
def handleWakeup (cause : WakeCause) (holdMs : Nat) : BootFlow × List Eff :=
  match cause with
  | .gpio =>
    if wakeHoldLoop holdMs 0 then (.proceed, [])
    else (.sleepAgain, enterDeepSleep)
  | .other => (.proceed, [])

/-- The tail of `setup()` seen by the pairing machine: if `handleWakeup`
slept, the pairing machine never runs (`none`); otherwise it starts `IDLE`
when already joined and `IN_PROGRESS` (Seeking) when not. -/
def setupPairing (cause : WakeCause) (holdMs : Nat) (connected : Bool)
    (now : Nat) : Option DeviceState :=
  match (handleWakeup cause holdMs).1 with
  | .sleepAgain => none
  | .proceed =>
    some (if connected then ⟨.PAIRING_IDLE, now⟩ else ⟨.PAIRING_IN_PROGRESS, now⟩)

end ZigbeeSwitch

/-- The wake hold loop detects exactly the holds strictly longer than
`LONG_PRESS_MS` (for poll instants aligned to the 50 ms grid). -/
theorem wakeHoldLoop_eq (holdMs t : Nat) (hm : t % 50 = 0)
    (hle : t ≤ ZigbeeSwitch.LONG_PRESS_MS) :
    ZigbeeSwitch.wakeHoldLoop holdMs t
      = decide (ZigbeeSwitch.LONG_PRESS_MS < holdMs) := by
  revert hm hle
  refine ZigbeeSwitch.wakeHoldLoop.induct holdMs
    (fun u => u % 50 = 0 → u ≤ ZigbeeSwitch.LONG_PRESS_MS →
      ZigbeeSwitch.wakeHoldLoop holdMs u
        = decide (ZigbeeSwitch.LONG_PRESS_MS < holdMs)) ?_ ?_ ?_ t
  · intro x h hm hle
    rw [ZigbeeSwitch.wakeHoldLoop]
    simp only [ZigbeeSwitch.LONG_PRESS_MS] at *
    simp [h]
    omega
  · intro x h1 h2 hm hle
    rw [ZigbeeSwitch.wakeHoldLoop]
    simp only [ZigbeeSwitch.LONG_PRESS_MS] at *
    simp [h1, h2]
    omega
  · intro x h1 h2 ih hm hle
    rw [ZigbeeSwitch.wakeHoldLoop]
    simp only [ZigbeeSwitch.LONG_PRESS_MS] at *
    simp only [if_neg h1, if_neg h2]
    exact ih (by omega) (by omega)

/-- Claim C7: Waking from this deep sleep (necessarily a GPIO wake — no other
wake source is enabled) with a hold that does not qualify as a long hold
(`holdMs ≤ LONG_PRESS_MS`) re-enters deep sleep without the pairing machine
ever running, hence without ever entering the Seeking state; conversely, any
boot flow on a GPIO wake that does reach a pairing state had a qualifying
long hold. -/
theorem boot_wake_gating (holdMs : Nat) (connected : Bool) (now : Nat) :
    (holdMs ≤ ZigbeeSwitch.LONG_PRESS_MS →
      (ZigbeeSwitch.handleWakeup .gpio holdMs).1
          = ZigbeeSwitch.BootFlow.sleepAgain ∧
      Eff.deepSleep ∈ (ZigbeeSwitch.handleWakeup .gpio holdMs).2 ∧
      ZigbeeSwitch.setupPairing .gpio holdMs connected now = none) ∧
    (∀ p : ZigbeeSwitch.DeviceState,
      ZigbeeSwitch.setupPairing .gpio holdMs connected now = some p →
        ZigbeeSwitch.LONG_PRESS_MS < holdMs) := by
  have hkey : ZigbeeSwitch.wakeHoldLoop holdMs 0
      = decide (ZigbeeSwitch.LONG_PRESS_MS < holdMs) :=
    wakeHoldLoop_eq holdMs 0 rfl (by simp [ZigbeeSwitch.LONG_PRESS_MS])
  constructor
  · intro h
    have hfalse : ZigbeeSwitch.wakeHoldLoop holdMs 0 = false := by
      rw [hkey]
      simpa using h
    simp [ZigbeeSwitch.handleWakeup, ZigbeeSwitch.setupPairing, hfalse,
      ZigbeeSwitch.enterDeepSleep, servo_set_angle]
  · intro p hp
    by_contra hc
    push_neg at hc
    have hfalse : ZigbeeSwitch.wakeHoldLoop holdMs 0 = false := by
      rw [hkey]
      simpa using hc
    simp [ZigbeeSwitch.setupPairing, ZigbeeSwitch.handleWakeup, hfalse] at hp

/-- Witness for C7: a 1-second hold after a GPIO wake goes back to sleep. -/
theorem boot_wake_gating_witness :
    (ZigbeeSwitch.handleWakeup .gpio 1000).1
        = ZigbeeSwitch.BootFlow.sleepAgain ∧
    Eff.deepSleep ∈ (ZigbeeSwitch.handleWakeup .gpio 1000).2 ∧
    ZigbeeSwitch.setupPairing .gpio 1000 false 0 = none :=
  (boot_wake_gating 1000 false 0).1 (by decide)

/-- Witness for C3 (amended) at the pressed-with-deadline state. -/
theorem servo_rest_idempotent_witness :
    (Legacy.servo_rest (Legacy.servo_rest legacyArmedPressed).1).1
        = (Legacy.servo_rest legacyArmedPressed).1 ∧
    countSetDuty (Legacy.servo_rest legacyArmedPressed).2 = 1 ∧
    countSetDuty (Legacy.servo_rest (Legacy.servo_rest legacyArmedPressed).1).2 = 1 ∧
    (Legacy.servo_rest (Legacy.servo_rest legacyArmedPressed).1).2.filter isSetDuty
      = [Eff.setDuty (servoDuty SERVO_REST_ANGLE)] ∧
    (Legacy.servo_rest legacyArmedPressed).2.filter isSetDuty
      = [Eff.setDuty (servoDuty SERVO_REST_ANGLE)] :=
  servo_rest_idempotent legacyArmedPressed

/-- Witness for C8 (amended) with every boolean input true. -/
theorem zigbee_reports_locked_witness :
    scopedReportDiscipline (ZigbeeSwitch.reportOnOff true).2 = true ∧
    scopedReportDiscipline (ZigbeeSwitch.reportLevel true).2 = true ∧
    (ZigbeeSwitch.reportOnOff true).1 = true ∧
    scopedReportDiscipline (ZigbeeSwitch.reportLightState true true true) = true :=
  zigbee_reports_locked true true true

/-- Witness for C9: a Tap at 100 ms while joined, from the rest state. -/
theorem tap_toggles_and_reports_iff_joined_witness :
    (Legacy.button_release false true 100 legacyArmedRest).1.at_target
        = !legacyArmedRest.at_target ∧
    countSetDuty (Legacy.button_release false true 100 legacyArmedRest).2 = 1 ∧
    ((Eff.reportReq ESP_ZB_ZCL_CLUSTER_ID_ON_OFF ESP_ZB_ZCL_ATTR_ON_OFF_ON_OFF_ID
        ∈ (Legacy.button_release false true 100 legacyArmedRest).2) ↔ true = true) :=
  tap_toggles_and_reports_iff_joined true 100 legacyArmedRest

/-! ## Main variant input handling: `button_task` in `src/main/main.c`
(lines 249–288)

One loop iteration reads `level` once at the top, and — only on a press edge —
re-reads the pin after the 50 ms debounce delay (`levelDebounced`); `now` is
`esp_timer_get_time() / 1000` at that point (the further reads within the same
iteration are microseconds apart).  Note the source's quirks, modelled as
written: a failed debounce re-check leaves `press_start` and `handled`
untouched; the Holding branch tests the *stale* top-of-loop `level` and is not
guarded by a confirmed press, so with `press_start == 0` it compares the whole
uptime against the long-press threshold; the Release branch never resets
`handled`. -/

namespace MainC

/-- The `led_state_t` global of `src/main/main.c`. -/
inductive LedState where
  | LED_OFF
  | LED_PAIRING
  | LED_CONNECTED
  | LED_ERROR
  | LED_RESET_WARN
  deriving DecidableEq

/-- Locals of `button_task` plus the globals it touches. -/
structure BtnTaskState where
  last_level : Nat
  press_start : Nat
  handled : Bool
  g_servo_state : Bool
  g_led_state : LedState
  deriving DecidableEq

def BUTTON_LONG_PRESS_MS : Nat := 3000

def BUTTON_DEBOUNCE_MS : Nat := 50

/-- This variant's target angle is 180 (not 160). -/
def SERVO_TARGET_ANGLE : Int := 180

def SERVO_REST_ANGLE : Int := 20

/-- `set_servo`: command the duty for the target or rest angle and record
`g_servo_state`. -/
def set_servo (o : Bool) (s : BtnTaskState) : BtnTaskState × List Eff :=
  ({ s with g_servo_state := o },
    [.setDuty (servoDuty (if o then SERVO_TARGET_ANGLE else SERVO_REST_ANGLE))])

/-- One iteration of the `button_task` polling loop. -/
def button_task_iter (level levelDebounced now : Nat) (s : BtnTaskState) :
    BtnTaskState × List Eff :=
  let s1 :=
    if s.last_level == 1 && level == 0 then
      if levelDebounced == 0 then
        { s with press_start := now, handled := false }
      else s
    else s
  let s2 :=
    if level == 0 && !s1.handled then
      if BUTTON_LONG_PRESS_MS < now - s1.press_start then
        { s1 with handled := true, g_led_state := .LED_RESET_WARN }
      else s1
    else s1
  let (s3, tr3) :=
    if s2.last_level == 0 && level == 1 then
      if s2.handled then ({ s2 with press_start := 0 }, [Eff.factoryReset])
      else if 0 < s2.press_start then
        let (s4, tr4) := set_servo (!s2.g_servo_state) s2
        ({ s4 with press_start := 0 }, tr4 ++ report_attribute)
      else ({ s2 with press_start := 0 }, ([] : List Eff))
    else (s2, ([] : List Eff))
  ({ s3 with last_level := level }, tr3)

end MainC

/-- Steady state of the main variant's button task: button released, no press
recorded, device connected, at some uptime past boot. -/
def mainCIdle : MainC.BtnTaskState :=
  { last_level := 1, press_start := 0, handled := false,
    g_servo_state := false, g_led_state := .LED_CONNECTED }

/-- Claim C5, counterexample: the claim also covers `button_task` in
`src/main/main.c`, where a held duration below the debounce floor followed by
release does not emit "no event".  At uptime 5000 ms the button bounces low at
the top-of-loop read but is high again at the 50 ms debounce re-check (a
sub-debounce episode), so `press_start` stays 0; the unguarded Holding branch
still runs on the stale low `level` with `!handled`, computes
`now - 0 > 3000`, and sets `handled`; the next iteration's release edge then
emits the factory reset.  So this below-debounce-floor episode produces a
(destructive) event, contradicting the claimed classification. -/
theorem button_task_bounce_emits_event :
    (MainC.button_task_iter 0 1 5000 mainCIdle).2 = [] ∧
    (MainC.button_task_iter 0 1 5000 mainCIdle).1.handled = true ∧
    (MainC.button_task_iter 1 1 5050
        (MainC.button_task_iter 0 1 5000 mainCIdle).1).2 = [Eff.factoryReset] := by
  decide
